import Mathlib

/-!
Shallow embedding of the casbin MongoDB adapter (adapter.go): the rule
record, the rule codec (savePolicyLine and the field scan of
loadPolicyLine), the RemoveFilteredPolicy selector builder, and the
adapter operations over an explicit state, with the storage layer's
outcomes (find, insert, delete, drop, cursor close) supplied as inputs.
-/

namespace MongoAdapter

/-- A persisted casbin rule record: a policy-type tag and six positional
string fields (struct CasbinRule in adapter.go). Unset fields hold the
Go zero value, the empty string. -/
structure CasbinRule where
  pType : String
  v0 : String
  v1 : String
  v2 : String
  v3 : String
  v4 : String
  v5 : String
  deriving DecidableEq, Repr

/-- The six positional fields of a record, in order. -/
def recFields (line : CasbinRule) : List String :=
  [line.v0, line.v1, line.v2, line.v3, line.v4, line.v5]

/-- Embeds savePolicyLine: field i is set from rule[i] exactly when
len(rule) > i, mirroring the six guarded assignments; fields not
assigned keep the zero value. -/
def savePolicyLine (ptype : String) (rule : List String) : CasbinRule where
  pType := ptype
  v0 := if 0 < rule.length then rule.getD 0 "" else ""
  v1 := if 1 < rule.length then rule.getD 1 "" else ""
  v2 := if 2 < rule.length then rule.getD 2 "" else ""
  v3 := if 3 < rule.length then rule.getD 3 "" else ""
  v4 := if 4 < rule.length then rule.getD 4 "" else ""
  v5 := if 5 < rule.length then rule.getD 5 "" else ""

/-- The token scan of loadPolicyLine: the goto chain appends V0..V5 in
order and jumps to LineEnd at the first empty field. -/
def loadTokens (line : CasbinRule) : List String :=
  if line.v0 = "" then [] else
  line.v0 ::
  (if line.v1 = "" then [] else
  line.v1 ::
  (if line.v2 = "" then [] else
  line.v2 ::
  (if line.v3 = "" then [] else
  line.v3 ::
  (if line.v4 = "" then [] else
  line.v4 ::
  (if line.v5 = "" then [] else
  [line.v5])))))

/-- One appended model entry: (section, policy type, rule tuple). -/
abbrev ModelEntry := String × String × List String

/-- The model as the log of entries appended by the loader. -/
abbrev ModelLog := List ModelEntry

/-- Embeds loadPolicyLine. The section is key[:1], a Go slice expression
that panics when the key is empty (modelled as none); otherwise the
scanned tuple is appended to the model under (key[:1], key). -/
def loadPolicyLine (line : CasbinRule) (m : ModelLog) : Option ModelLog :=
  if line.pType = "" then none
  else some (m ++ [(line.pType.take 1, line.pType, loadTokens line)])

/-- Go slice indexing xs[j] with an integer index: a panic (none) unless
0 <= j < len(xs). -/
def goIndex (xs : List String) (j : Int) : Option String :=
  if 0 ≤ j ∧ j.toNat < xs.length then some (xs.getD j.toNat "") else none

/-- One unrolled block of RemoveFilteredPolicy for absolute field
position i: under the window guards, read fieldValues[i - fieldIndex]
and add it as a constraint when non-empty. The outer Option is a Go
panic on the index expression; the inner Option is whether a constraint
for field i is present in the selector. -/
def selectorEntry (fieldIndex : Int) (fieldValues : List String) (i : Nat) :
    Option (Option String) :=
  if fieldIndex ≤ (i : Int) ∧ (i : Int) < fieldIndex + fieldValues.length then
    (goIndex fieldValues ((i : Int) - fieldIndex)).map fun v =>
      if v ≠ "" then some v else none
  else
    some none

/-- Embeds the selector construction of RemoveFilteredPolicy: the ptype
constraint plus the six per-field entries, in field order. -/
def removeFilteredSelector (ptype : String) (fieldIndex : Int)
    (fieldValues : List String) : Option (String × List (Option String)) := do
  let f0 ← selectorEntry fieldIndex fieldValues 0
  let f1 ← selectorEntry fieldIndex fieldValues 1
  let f2 ← selectorEntry fieldIndex fieldValues 2
  let f3 ← selectorEntry fieldIndex fieldValues 3
  let f4 ← selectorEntry fieldIndex fieldValues 4
  let f5 ← selectorEntry fieldIndex fieldValues 5
  pure (ptype, [f0, f1, f2, f3, f4, f5])

/-- The constraint for absolute field position i as the spec words it
in its selector-builder section: with j = i - fieldIndex, a constraint
fieldValues[j] is present iff fieldIndex <= i, j is in bounds, and
fieldValues[j] is non-empty. -/
def specSelectorEntry (fieldIndex : Int) (fieldValues : List String) (i : Nat) :
    Option String :=
  if fieldIndex ≤ (i : Int) ∧ (i : Int) < fieldIndex + fieldValues.length
      ∧ fieldValues.getD ((i : Int) - fieldIndex).toNat "" ≠ "" then
    some (fieldValues.getD ((i : Int) - fieldIndex).toNat "")
  else
    none

/-- Adapter state: the filtered flag plus the stored records of the
casbin_rule collection. -/
structure AdapterState where
  filtered : Bool
  store : List CasbinRule
  deriving DecidableEq, Repr

/-- The part of the casbin model SavePolicy reads: the buckets of the
"p" section and of the "g" section, each a list of (ptype, rules). -/
structure PolicyModel where
  pSec : List (String × List (List String))
  gSec : List (String × List (List String))
  deriving DecidableEq, Repr

/-- The records SavePolicy encodes: every rule of every "p" bucket,
then of every "g" bucket. -/
def savedLines (m : PolicyModel) : List CasbinRule :=
  (m.pSec.map fun b => b.2.map fun rule => savePolicyLine b.1 rule).flatten ++
  (m.gSec.map fun b => b.2.map fun rule => savePolicyLine b.1 rule).flatten

/-- The error SavePolicy returns on a filtered adapter. -/
def filteredSaveError : String := "cannot save a filtered policy"

/-- Embeds SavePolicy: refuse when filtered; otherwise drop the
collection, then bulk-insert the encoded model. dropErr and insertErr
are the storage layer's outcomes for the Drop and InsertMany calls. -/
def savePolicy (st : AdapterState) (m : PolicyModel)
    (dropErr insertErr : Option String) : Option String × AdapterState :=
  if st.filtered then (some filteredSaveError, st)
  else
    match dropErr with
    | some e => (some e, st)
    | none =>
      match insertErr with
      | some e => (some e, { st with store := [] })
      | none => (none, { st with store := savedLines m })

/-- How a call to LoadFilteredPolicy ends: a log.Fatal process exit on a
Find error, a Go panic out of loadPolicyLine, or a normal return whose
value is the cursor Close result. -/
inductive LoadOutcome where
  | fatal (e : String)
  | panicked
  | ok (closeResult : Option String)
  deriving DecidableEq, Repr

/-- Result of a load: how it ended, the adapter state, and the model. -/
structure LoadResult where
  outcome : LoadOutcome
  state : AdapterState
  modelLog : ModelLog
  deriving DecidableEq, Repr

/-- The cursor loop of LoadFilteredPolicy: a none item is a record whose
cur.Decode failed (skipped); a decoded record goes through
loadPolicyLine, whose panic stops the loop (first component true). -/
def processItems : ModelLog → List (Option CasbinRule) → Bool × ModelLog
  | m, [] => (false, m)
  | m, none :: rest => processItems m rest
  | m, some line :: rest =>
    match loadPolicyLine line m with
    | none => (true, m)
    | some m1 => processItems m1 rest

/-- Embeds LoadFilteredPolicy. filter = none is a Go nil filter
(replaced by the match-all selector, clearing filtered); any non-nil
filter sets filtered. findErr is the Find outcome - on an error the
code calls log.Fatal, ending the process. items are the records the
cursor yields; closeErr is the cur.Close result, which is what the
function returns. -/
def loadFilteredPolicy (st : AdapterState) (m : ModelLog)
    (filter : Option String) (findErr : Option String)
    (items : List (Option CasbinRule)) (closeErr : Option String) : LoadResult :=
  let st1 : AdapterState := { st with filtered := filter.isSome }
  match findErr with
  | some e => { outcome := .fatal e, state := st1, modelLog := m }
  | none =>
    let r := processItems m items
    { outcome := if r.1 then .panicked else .ok closeErr
      state := st1
      modelLog := r.2 }

/-- Embeds LoadPolicy: LoadFilteredPolicy with a nil filter. -/
def loadPolicy (st : AdapterState) (m : ModelLog) (findErr : Option String)
    (items : List (Option CasbinRule)) (closeErr : Option String) : LoadResult :=
  loadFilteredPolicy st m none findErr items closeErr

/-- Embeds IsFiltered. -/
def isFiltered (st : AdapterState) : Bool := st.filtered

/-- Embeds AddPolicy: encode the rule and insert one record. -/
def addPolicy (st : AdapterState) (_sec ptype : String) (rule : List String)
    (insertErr : Option String) : Option String × AdapterState :=
  let line := savePolicyLine ptype rule
  match insertErr with
  | some e => (some e, st)
  | none => (none, { st with store := st.store ++ [line] })

/-- DeleteOne with a whole-record equality filter: removes the first
matching record, if any. -/
def deleteOne (line : CasbinRule) : List CasbinRule → List CasbinRule
  | [] => []
  | r :: rest => if r = line then rest else r :: deleteOne line rest

/-- Embeds RemovePolicy: encode the rule into a full-field equality
selector and delete at most one matching record. -/
def removePolicy (st : AdapterState) (_sec ptype : String) (rule : List String)
    (delErr : Option String) : Option String × AdapterState :=
  let line := savePolicyLine ptype rule
  match delErr with
  | some e => (some e, st)
  | none => (none, { st with store := deleteOne line st.store })

/-- Whether a record matches a built selector: ptype equality plus every
present per-field constraint. -/
def matchesSelector (sel : String × List (Option String)) (r : CasbinRule) : Bool :=
  (r.pType == sel.1) &&
    ((sel.2.zip (recFields r)).all fun cv =>
      match cv.1 with
      | none => true
      | some v => cv.2 == v)

/-- Embeds RemoveFilteredPolicy: build the selector (none is a panic in
its construction) and delete every matching record. -/
def removeFilteredPolicy (st : AdapterState) (_sec ptype : String)
    (fieldIndex : Int) (fieldValues : List String) (delErr : Option String) :
    Option (Option String × AdapterState) :=
  (removeFilteredSelector ptype fieldIndex fieldValues).map fun sel =>
    match delErr with
    | some e => (some e, st)
    | none => (none, { st with store := st.store.filter fun r => ! matchesSelector sel r })

/-- Claim C9: loadPolicyLine is total exactly on records with a
non-empty type tag - the section extraction key[:1] cannot fail when
the tag is non-empty, and is a slice-bounds panic (not a returned
error) when the tag is empty. -/
theorem loadPolicyLine_total_iff (line : CasbinRule) (m : ModelLog) :
    (loadPolicyLine line m).isSome ↔ line.pType ≠ "" := by
  by_cases h : line.pType = "" <;> simp [loadPolicyLine, h]

/-- Claim C6 counterexample: the tuple with an empty first value and a
non-empty second value encodes to a record whose later field v1 is
non-empty while the earlier field v0 is empty. -/
theorem savePolicyLine_hole_counterexample :
    (savePolicyLine "p" ["", "b"]).v0 = "" ∧
      (savePolicyLine "p" ["", "b"]).v1 = "b" ∧ ("b" : String) ≠ "" :=
  ⟨rfl, rfl, by decide⟩

/-- Claim C6 (amended): for tuples of length at most 6 whose empty
strings occur only in the final position, the encoded record never has
a later field non-empty while an earlier field is empty. -/
theorem savePolicyLine_noHole (ptype : String) (rule : List String)
    (hlen : rule.length ≤ 6) (hne : ∀ s ∈ rule.dropLast, s ≠ "") :
    ∀ i j : Nat, i < j → j < 6 →
      (recFields (savePolicyLine ptype rule)).getD i "" = "" →
      (recFields (savePolicyLine ptype rule)).getD j "" = "" := by
  intro i j hij hj hempty
  rcases rule with _ | ⟨a, _ | ⟨b, _ | ⟨c, _ | ⟨d, _ | ⟨e, _ | ⟨f, _ | ⟨g, t⟩⟩⟩⟩⟩⟩⟩
  case cons.cons.cons.cons.cons.cons.cons =>
    simp at hlen
  all_goals
    interval_cases j <;> interval_cases i <;>
      simp_all [recFields, savePolicyLine]

/-- Witness for the amended C6 at a concrete tuple. -/
theorem savePolicyLine_noHole_witness :
    (recFields (savePolicyLine "p" ["a", ""])).getD 3 "" = "" :=
  savePolicyLine_noHole "p" ["a", ""] (by decide) (by decide) 1 3
    (by decide) (by decide) (by decide)

/-- Claim C3: SavePolicy on a filtered adapter returns the filtered-save
error and leaves the adapter state, including the stored records,
unchanged. -/
theorem savePolicy_filtered_noop (st : AdapterState) (m : PolicyModel)
    (dropErr insertErr : Option String) (h : st.filtered = true) :
    savePolicy st m dropErr insertErr = (some filteredSaveError, st) := by
  simp [savePolicy, h]

/-- Witness for C3 at a concrete filtered state. -/
theorem savePolicy_filtered_noop_witness :
    savePolicy ⟨true, []⟩ ⟨[], []⟩ none none = (some filteredSaveError, ⟨true, []⟩) :=
  savePolicy_filtered_noop ⟨true, []⟩ ⟨[], []⟩ none none rfl

/-- Claim C1 counterexample: the one-element tuple holding only the
empty string has no empty string in a non-trailing position, yet
encoding it and re-scanning the record yields the empty tuple, not the
original tuple. -/
theorem roundTrip_counterexample :
    (∀ s ∈ ([""] : List String).dropLast, s ≠ "") ∧
      loadTokens (savePolicyLine "p" [""]) = [] ∧
      ([] : List String) ≠ [""] :=
  ⟨by decide, rfl, by decide⟩

/-- Claim C1 (amended): for tuples of length at most 6 that contain no
empty string at all, scanning the fields of the encoded record returns
exactly the original tuple. -/
theorem roundTrip (ptype : String) (rule : List String)
    (hlen : rule.length ≤ 6) (hne : ∀ s ∈ rule, s ≠ "") :
    loadTokens (savePolicyLine ptype rule) = rule := by
  rcases rule with _ | ⟨a, _ | ⟨b, _ | ⟨c, _ | ⟨d, _ | ⟨e, _ | ⟨f, _ | ⟨g, t⟩⟩⟩⟩⟩⟩⟩
  case cons.cons.cons.cons.cons.cons.cons =>
    simp at hlen
  all_goals
    simp_all [loadTokens, savePolicyLine]

/-- Witness for the amended C1 at a concrete tuple. -/
theorem roundTrip_witness :
    loadTokens (savePolicyLine "p" ["alice", "data1", "read"]) =
      ["alice", "data1", "read"] :=
  roundTrip "p" ["alice", "data1", "read"] (by decide) (by decide)

/-- takeWhile with the non-empty test, unfolded on a cons cell into the
if shape used by the token scan. -/
theorem takeWhile_ne_empty_cons (a : String) (l : List String) :
    List.takeWhile (fun s => s != "") (a :: l) =
      if a = "" then [] else a :: List.takeWhile (fun s => s != "") l := by
  by_cases ha : a = ""
  · rw [if_pos ha, List.takeWhile_cons_of_neg]
    simp [ha]
  · rw [if_neg ha, List.takeWhile_cons_of_pos]
    simp [ha]

/-- Claim C8: the decode scan returns the longest prefix of the six
fields whose members are all non-empty (it stops at the first empty
field, so an empty v0 gives the empty tuple), and loadPolicyLine
appends that tuple to the model under (first character of the type
tag, type tag). -/
theorem loadPolicyLine_scan_spec (line : CasbinRule) (m : ModelLog)
    (h : line.pType ≠ "") :
    loadTokens line = (recFields line).takeWhile (fun s => s != "") ∧
      (line.v0 = "" → loadTokens line = []) ∧
      loadPolicyLine line m =
        some (m ++ [(line.pType.take 1, line.pType, loadTokens line)]) := by
  refine ⟨?_, ?_, ?_⟩
  · unfold loadTokens
    simp only [recFields, takeWhile_ne_empty_cons, List.takeWhile_nil]
  · intro h0
    simp [loadTokens, h0]
  · simp [loadPolicyLine, h]

/-- Witness for C8 at a concrete record with a hole after the first
field. -/
theorem loadPolicyLine_scan_spec_witness :
    loadTokens ⟨"p2", "a", "", "b", "", "", ""⟩ =
        (recFields ⟨"p2", "a", "", "b", "", "", ""⟩).takeWhile (fun s => s != "") ∧
      (CasbinRule.v0 ⟨"p2", "a", "", "b", "", "", ""⟩ = "" →
        loadTokens ⟨"p2", "a", "", "b", "", "", ""⟩ = []) ∧
      loadPolicyLine ⟨"p2", "a", "", "b", "", "", ""⟩ [] =
        some ([] ++ [(String.take "p2" 1, "p2", loadTokens ⟨"p2", "a", "", "b", "", "", ""⟩)]) :=
  loadPolicyLine_scan_spec ⟨"p2", "a", "", "b", "", "", ""⟩ [] (by decide)

/-- Each unrolled selector block agrees with the spec's per-position
rule, and in particular never reaches the panic case of the index
expression. -/
theorem selectorEntry_eq_spec (fieldIndex : Int) (fieldValues : List String)
    (i : Nat) :
    selectorEntry fieldIndex fieldValues i =
      some (specSelectorEntry fieldIndex fieldValues i) := by
  unfold selectorEntry specSelectorEntry goIndex
  by_cases hw : fieldIndex ≤ (i : Int) ∧ (i : Int) < fieldIndex + fieldValues.length
  · have h0 : 0 ≤ (i : Int) - fieldIndex := by omega
    have h1 : ((i : Int) - fieldIndex).toNat < fieldValues.length := by omega
    rw [if_pos hw, if_pos ⟨h0, h1⟩, Option.map_some']
    by_cases hv : fieldValues.getD ((i : Int) - fieldIndex).toNat "" = ""
    · rw [if_neg (by simpa using hv), if_neg fun hc => hc.2.2 hv]
    · rw [if_pos hv, if_pos ⟨hw.1, hw.2, hv⟩]
  · rw [if_neg hw, if_neg fun hc => hw ⟨hc.1, hc.2.1⟩]

/-- The whole selector construction, evaluated: the ptype constraint
plus the six per-position entries of the spec rule. -/
theorem removeFilteredSelector_eq (ptype : String) (fieldIndex : Int)
    (fieldValues : List String) :
    removeFilteredSelector ptype fieldIndex fieldValues =
      some (ptype,
        [specSelectorEntry fieldIndex fieldValues 0,
         specSelectorEntry fieldIndex fieldValues 1,
         specSelectorEntry fieldIndex fieldValues 2,
         specSelectorEntry fieldIndex fieldValues 3,
         specSelectorEntry fieldIndex fieldValues 4,
         specSelectorEntry fieldIndex fieldValues 5]) := by
  simp [removeFilteredSelector, selectorEntry_eq_spec]

/-- Claim C2: the selector built by RemoveFilteredPolicy is exactly the
ptype constraint plus, for each absolute position i in 0..5, the
constraint fieldValues[i - fieldIndex] precisely when fieldIndex <= i,
i < fieldIndex + len(fieldValues), and that value is non-empty; no
other constraint appears. -/
theorem removeFilteredSelector_spec (ptype : String) (fieldIndex : Int)
    (fieldValues : List String) :
    removeFilteredSelector ptype fieldIndex fieldValues =
      some (ptype,
        [specSelectorEntry fieldIndex fieldValues 0,
         specSelectorEntry fieldIndex fieldValues 1,
         specSelectorEntry fieldIndex fieldValues 2,
         specSelectorEntry fieldIndex fieldValues 3,
         specSelectorEntry fieldIndex fieldValues 4,
         specSelectorEntry fieldIndex fieldValues 5]) :=
  removeFilteredSelector_eq ptype fieldIndex fieldValues

/-- Claim C10: for every fieldIndex (negative included) and every list
of field values, each per-position access sits behind guards that keep
the index in bounds, so no block and no whole selector construction
reaches the Go index panic. -/
theorem removeFilteredSelector_no_panic (ptype : String) (fieldIndex : Int)
    (fieldValues : List String) :
    (∀ i : Nat, (selectorEntry fieldIndex fieldValues i).isSome = true) ∧
      (removeFilteredSelector ptype fieldIndex fieldValues).isSome = true := by
  constructor
  · intro i
    rw [selectorEntry_eq_spec]
    rfl
  · rw [removeFilteredSelector_eq]
    rfl

/-- Claim C5: the loads set the filtered flag to whether a filter was
supplied (LoadPolicy clears it), and no other adapter operation
changes it. -/
theorem filtered_flag_invariant (st : AdapterState) (m : ModelLog)
    (filter : Option String) (findErr closeErr : Option String)
    (items : List (Option CasbinRule)) (pm : PolicyModel)
    (dropErr insertErr delErr delErr2 insErr2 : Option String)
    (sec ptype : String) (rule fieldValues : List String) (fieldIndex : Int) :
    (loadFilteredPolicy st m filter findErr items closeErr).state.filtered
        = filter.isSome ∧
      (loadPolicy st m findErr items closeErr).state.filtered = false ∧
      (savePolicy st pm dropErr insertErr).2.filtered = st.filtered ∧
      (addPolicy st sec ptype rule insErr2).2.filtered = st.filtered ∧
      (removePolicy st sec ptype rule delErr).2.filtered = st.filtered ∧
      ((removeFilteredPolicy st sec ptype fieldIndex fieldValues delErr2).elim
        True fun r => r.2.filtered = st.filtered) ∧
      isFiltered st = st.filtered := by
  refine ⟨?_, ?_, ?_, ?_, ?_, ?_, rfl⟩
  · cases findErr <;> simp [loadFilteredPolicy]
  · cases findErr <;> simp [loadPolicy, loadFilteredPolicy]
  · by_cases hf : st.filtered <;>
      cases dropErr <;> cases insertErr <;> simp [savePolicy, hf]
  · cases insErr2 <;> simp [addPolicy]
  · cases delErr <;> simp [removePolicy]
  · cases delErr2 <;>
      simp [removeFilteredPolicy, removeFilteredSelector_eq, Option.elim]

/-- Claim C4 counterexample: a transport error from Find makes
LoadFilteredPolicy call log.Fatal, terminating the process; the error
is not surfaced to the caller as a returned error value. -/
theorem load_find_error_not_returned :
    (loadFilteredPolicy ⟨false, []⟩ [] none (some "connection refused") []
        none).outcome = LoadOutcome.fatal "connection refused" ∧
      LoadOutcome.fatal "connection refused"
        ≠ LoadOutcome.ok (some "connection refused") :=
  ⟨rfl, by decide⟩

/-- Claim C4 (amended): a Find transport error aborts the load by
terminating the process (log.Fatal), not by returning the error; when
Find succeeds and no record panics the decoder, the cursor error from
Close is the returned value, surfaced after the consuming loop, and
the decoded progress is kept in the model. -/
theorem load_error_surfacing (st : AdapterState) (m : ModelLog)
    (filter : Option String) (items : List (Option CasbinRule))
    (e : String) (closeErr : Option String)
    (hnp : (processItems m items).1 = false) :
    (loadFilteredPolicy st m filter (some e) items closeErr).outcome
        = LoadOutcome.fatal e ∧
      (loadFilteredPolicy st m filter none items closeErr).outcome
        = LoadOutcome.ok closeErr ∧
      (loadFilteredPolicy st m filter none items closeErr).modelLog
        = (processItems m items).2 := by
  refine ⟨rfl, ?_, rfl⟩
  simp [loadFilteredPolicy, hnp]

/-- Witness for the amended C4 at one record and a cursor error. -/
theorem load_error_surfacing_witness :
    (loadFilteredPolicy ⟨false, []⟩ [] none (some "boom")
        [some ⟨"p", "a", "", "", "", "", ""⟩] (some "cursor error")).outcome
        = LoadOutcome.fatal "boom" ∧
      (loadFilteredPolicy ⟨false, []⟩ [] none none
        [some ⟨"p", "a", "", "", "", "", ""⟩] (some "cursor error")).outcome
        = LoadOutcome.ok (some "cursor error") ∧
      (loadFilteredPolicy ⟨false, []⟩ [] none none
        [some ⟨"p", "a", "", "", "", "", ""⟩] (some "cursor error")).modelLog
        = (processItems [] [some ⟨"p", "a", "", "", "", "", ""⟩]).2 :=
  load_error_surfacing ⟨false, []⟩ [] none [some ⟨"p", "a", "", "", "", "", ""⟩]
    "boom" (some "cursor error") rfl

/-- The cursor loop over well-formed records only: every record is
decoded and appended, in order, with no panic. -/
theorem processItems_ok (rules : List CasbinRule) :
    ∀ m : ModelLog, (∀ r ∈ rules, r.pType ≠ "") →
      processItems m (rules.map some) =
        (false, m ++ rules.map fun line =>
          (line.pType.take 1, line.pType, loadTokens line)) := by
  induction rules with
  | nil => intro m _; simp [processItems]
  | cons r rest ih =>
    intro m h
    have hr : r.pType ≠ "" := h r (by simp)
    have hrest : ∀ x ∈ rest, x.pType ≠ "" := fun x hx => h x (by simp [hx])
    simp [processItems, loadPolicyLine, hr, ih _ hrest]

/-- Splitting the cursor loop at a prefix that finishes without
panicking. -/
theorem processItems_append_of_ok (xs : List (Option CasbinRule)) :
    ∀ m m1 ys, processItems m xs = (false, m1) →
      processItems m (xs ++ ys) = processItems m1 ys := by
  induction xs with
  | nil =>
    intro m m1 ys hm
    simp [processItems] at hm
    simp [hm]
  | cons x rest ih =>
    intro m m1 ys hm
    cases x with
    | none =>
      simp only [processItems] at hm
      simpa [processItems] using ih m m1 ys hm
    | some line =>
      cases hl : loadPolicyLine line m with
      | none => simp [processItems, hl] at hm
      | some m2 =>
        simp only [processItems, hl] at hm
        simpa [processItems, hl] using ih m2 m1 ys hm

/-- Claim C7: with exactly one undecodable record among well-formed
decodable ones, every decodable record is decoded into the model in
order, and the load returns normally rather than aborting with an
error for the malformed record. -/
theorem load_skips_malformed (st : AdapterState) (m : ModelLog)
    (filter : Option String) (closeErr : Option String)
    (pre post : List CasbinRule)
    (hpre : ∀ r ∈ pre, r.pType ≠ "") (hpost : ∀ r ∈ post, r.pType ≠ "") :
    (loadFilteredPolicy st m filter none
        (pre.map some ++ none :: post.map some) closeErr).outcome
        = LoadOutcome.ok closeErr ∧
      (loadFilteredPolicy st m filter none
          (pre.map some ++ none :: post.map some) closeErr).modelLog
        = m ++ (pre ++ post).map fun line =>
            (line.pType.take 1, line.pType, loadTokens line) := by
  have h1 := processItems_ok pre m hpre
  have h2 := processItems_append_of_ok (pre.map some) m _ (none :: post.map some) h1
  have h3 : processItems m (pre.map some ++ none :: post.map some) =
      (false, m ++ (pre ++ post).map fun line =>
        (line.pType.take 1, line.pType, loadTokens line)) := by
    rw [h2]
    show processItems _ (post.map some) = _
    rw [processItems_ok post _ hpost]
    simp
  constructor
  · simp [loadFilteredPolicy, h3]
  · simp [loadFilteredPolicy, h3]

/-- Witness for C7: one malformed record between two valid ones. -/
theorem load_skips_malformed_witness :
    (loadFilteredPolicy ⟨false, []⟩ [] (some "sel") none
        (([(⟨"p", "alice", "data1", "read", "", "", ""⟩ : CasbinRule)].map some) ++
          none :: ([(⟨"g", "alice", "admin", "", "", "", ""⟩ : CasbinRule)].map some))
        none).outcome = LoadOutcome.ok none ∧
      (loadFilteredPolicy ⟨false, []⟩ [] (some "sel") none
          (([(⟨"p", "alice", "data1", "read", "", "", ""⟩ : CasbinRule)].map some) ++
            none :: ([(⟨"g", "alice", "admin", "", "", "", ""⟩ : CasbinRule)].map some))
          none).modelLog
        = [] ++ (([(⟨"p", "alice", "data1", "read", "", "", ""⟩ : CasbinRule)] ++
            [(⟨"g", "alice", "admin", "", "", "", ""⟩ : CasbinRule)]).map fun line =>
              (line.pType.take 1, line.pType, loadTokens line)) :=
  load_skips_malformed ⟨false, []⟩ [] (some "sel") none
    [(⟨"p", "alice", "data1", "read", "", "", ""⟩ : CasbinRule)]
    [(⟨"g", "alice", "admin", "", "", "", ""⟩ : CasbinRule)]
    (by decide) (by decide)

end MongoAdapter
